import Mathlib

/-!
Shallow embedding of `src/backend/app/services/reservations.py`
(repository `czraine/New_devs_App`).

The file defines two async operations over an external database pool:

* `calculate_monthly_revenue(property_id, tenant_id, month, year)` —
  month-scoped revenue sum for one tenant/property, with a static
  tenant-keyed fallback table (`monthly_mock`) used in its `except` handler;
* `calculate_total_revenue(property_id, tenant_id)` — all-time revenue sum
  and reservation count, with a static tenant-keyed fallback table
  (`mock_data`) used in its `except` handler.

The database pool (`app.core.database_pool.DatabasePool`) and SQLAlchemy are
external collaborators (out of scope per the spec); one invocation of the
collaborator is modelled by `DbTier`: it can raise an exception at any step
(`raises`), it can initialize successfully while leaving `session_factory`
falsy (`unavailable`), or it can be fully live and execute the SQL text
against a table of reservation rows (`live`).  The SQL queries themselves are
embedded as filters/sums over the row list, mirroring their WHERE clauses.

Python `Decimal` values are modelled by `PyDecimal` (integer mantissa and a
decimal scale), which preserves trailing zeros exactly as `Decimal` does, so
that `str(Decimal('0.000')) = "0.000"` and `str(Decimal('0')) = "0"` are
distinguishable, as in the source.
-/

set_option autoImplicit false

namespace Reservations

/-- Python `decimal.Decimal` restricted to the finite values this code
manipulates: `mantissa / 10 ^ scale`, keeping the scale so the printed form
(trailing zeros included) is preserved, exactly as `Decimal` does. -/
structure PyDecimal where
  mantissa : Int
  scale : Nat
deriving DecidableEq, Repr

/-- Addition as performed by exact decimal arithmetic (and by SQL `SUM` over
`NUMERIC` columns): align scales, add mantissas. -/
def PyDecimal.add (a b : PyDecimal) : PyDecimal :=
  let s := max a.scale b.scale
  ⟨a.mantissa * (10 : Int) ^ (s - a.scale) + b.mantissa * (10 : Int) ^ (s - b.scale), s⟩

/-- Left-pad a digit string with zeros up to length `k` (for fractional parts). -/
def padZeros (s : String) (k : Nat) : String :=
  if s.length < k then String.mk (List.replicate (k - s.length) '0') ++ s else s

/-- `str()` of a finite `Decimal`: the plain digit string with `scale` digits
after the point (no exponent notation is produced for the magnitudes handled
by the source). -/
def PyDecimal.toStr (d : PyDecimal) : String :=
  let sign := if d.mantissa < 0 then "-" else ""
  let n := d.mantissa.natAbs
  if d.scale = 0 then sign ++ toString n
  else
    let base := (10 : Nat) ^ d.scale
    sign ++ toString (n / base) ++ "." ++ padZeros (toString (n % base)) d.scale

/-- Sum of a list of decimals, starting from `Decimal('0')` (SQL
`COALESCE(SUM(...), 0)` yields this zero on an empty row set). -/
def decSum (l : List PyDecimal) : PyDecimal :=
  l.foldr PyDecimal.add ⟨0, 0⟩

/-- A calendar date as Python's `datetime` carries it (only the day-start
instants `datetime(y, m, 1)` occur in the source, so hour/minute/second are
omitted). -/
structure Date where
  year : Int
  month : Int
  day : Int
deriving DecidableEq, Repr

/-- Chronological `≤` on dates: lexicographic on (year, month, day). -/
def dateLeb (a b : Date) : Bool :=
  if a.year < b.year then true
  else if b.year < a.year then false
  else if a.month < b.month then true
  else if b.month < a.month then false
  else decide (a.day ≤ b.day)

/-- Chronological `<` on dates: lexicographic on (year, month, day). -/
def dateLtb (a b : Date) : Bool :=
  if a.year < b.year then true
  else if b.year < a.year then false
  else if a.month < b.month then true
  else if b.month < a.month then false
  else decide (a.day < b.day)

/-- The `datetime(year, month, day)` constructor: raises `ValueError` when
the month is outside 1–12, otherwise yields the date.  (CPython additionally
bounds `year` to 1–9999 and checks `day` against the month length; the source
only ever passes `day = 1`, and the spec types `year` as a plain integer, so
those checks are not modelled — only the month validation, which is the one a
caller of this code can trip.) -/
def pyDate (d : Date) : Except String Date :=
  if 1 ≤ d.month ∧ d.month ≤ 12 then .ok d
  else .error "ValueError: month must be in 1..12"

/-- `start_date = datetime(year, month, 1)` (line 12 of the source). -/
def start_date (year month : Int) : Date := ⟨year, month, 1⟩

/-- `end_date`: `datetime(year, month + 1, 1)` when `month < 12`, else
`datetime(year + 1, 1, 1)` (lines 13–16 of the source). -/
def end_date (year month : Int) : Date :=
  if month < 12 then ⟨year, month + 1, 1⟩ else ⟨year + 1, 1, 1⟩

/-- One row of the external `reservations` table (read-only to this core). -/
structure Reservation where
  property_id : String
  tenant_id : String
  total_amount : PyDecimal
  check_in_date : Date
deriving DecidableEq, Repr

/-- The behaviour of the external database collaborator during one
invocation.  `raises msg` — some step inside the `try` block (import, pool
construction, `initialize`, session acquisition or query execution) raises an
exception whose message is `msg`; `unavailable` — everything up to the
readiness check succeeds but `db_pool.session_factory` is falsy;
`live db` — the pool is ready and the SQL executes against table `db`. -/
inductive DbTier where
  | raises (msg : String)
  | unavailable
  | live (db : List Reservation)

/-- How a Python call ends: an uncaught exception, the implicit `None` from
falling off the end of the function body, or a returned value. -/
inductive PyValue (α : Type) where
  | exn (msg : String)
  | pyNone
  | val (a : α)
deriving DecidableEq, Repr

/-- `dict.get(key, default)` over an association list (Python dicts in the
source are literal and small; insertion order is irrelevant to `.get`). -/
def dictGet {α : Type} (d : List (String × α)) (k : String) (dflt : α) : α :=
  (d.lookup k).getD dflt

/-- WHERE clause of the monthly query (lines 30–33):
`property_id = :property_id AND tenant_id = :tenant_id AND
check_in_date >= :start_date AND check_in_date < :end_date`. -/
def monthlyWhere (pid tid : String) (s e : Date) (r : Reservation) : Bool :=
  r.property_id == pid && r.tenant_id == tid
    && dateLeb s r.check_in_date && dateLtb r.check_in_date e

/-- Result of `SELECT COALESCE(SUM(total_amount), 0) ... ` (lines 27–34): an
aggregate without `GROUP BY` always yields exactly one row, whose `total` is
the coalesced sum over the matching reservations. -/
def monthlyQueryTotal (db : List Reservation) (pid tid : String) (s e : Date) :
    PyDecimal :=
  decSum ((db.filter (monthlyWhere pid tid s e)).map Reservation.total_amount)

/-- The fallback dict `monthly_mock` of `calculate_monthly_revenue`
(lines 47–50), values as `Decimal` literals. -/
def monthly_mock : List (String × List (String × PyDecimal)) :=
  [("tenant-a", [("prop-001", ⟨333333, 3⟩), ("prop-002", ⟨1243875, 3⟩),
                 ("prop-003", ⟨3050250, 3⟩)]),
   ("tenant-b", [("prop-001", ⟨0, 3⟩), ("prop-004", ⟨444125, 3⟩),
                 ("prop-005", ⟨1085333, 3⟩)])]

/-- `monthly_mock.get(tenant_id, {}).get(property_id, Decimal('0'))`
(line 51): tenant-keyed first, property-keyed second. -/
def monthlyFallback (tid pid : String) : PyDecimal :=
  dictGet (dictGet monthly_mock tid []) pid ⟨0, 0⟩

/-- Zero-pad to width 2, as Python's `{:02d}` format does for the months this
code formats. -/
def pad2 (m : Int) : String :=
  if 0 ≤ m ∧ m < 10 then "0" ++ toString m else toString m

/-- The diagnostic printed by `calculate_monthly_revenue`'s handler
(line 44). -/
def monthlyDiag (pid tid : String) (year month : Int) (msg : String) : String :=
  "[calculate_monthly_revenue] DB error for " ++ pid ++ "/" ++ tid ++ " "
    ++ toString year ++ "-" ++ pad2 month ++ ": " ++ msg

/-- The `try` block of `calculate_monthly_revenue` (lines 18–42), given the
already-computed date bounds.  `.error msg` — an exception reaches the
`except` handler; `.ok none` — `db_pool.session_factory` was falsy, so the
`if` body is skipped and the block completes without returning; `.ok (some d)`
— the live query returned and `Decimal(str(row.total))` is `d` (the model
uses the decimal sum directly, since `Decimal(str(·))` round-trips the exact
decimal the aggregate produces). -/
def monthlyBody (pid tid : String) (s e : Date) (tier : DbTier) :
    Except String (Option PyDecimal) :=
  match tier with
  | .raises msg => .error msg
  | .unavailable => .ok none
  | .live db => .ok (some (monthlyQueryTotal db pid tid s e))

/-- `calculate_monthly_revenue(property_id, tenant_id, month, year)`
(lines 5–51).  The date bounds are computed before the `try` block, so a
`ValueError` from `datetime` propagates to the caller; inside the `try`, an
exception lands in the handler (diagnostic + `monthly_mock` fallback), while
a falsy `session_factory` lets the function body end without a `return`,
producing Python `None`.  The second component collects the diagnostics
printed during the call. -/
def calculate_monthly_revenue (pid tid : String) (month year : Int)
    (tier : DbTier) : PyValue PyDecimal × List String :=
  match pyDate (start_date year month) with
  | .error m => (.exn m, [])
  | .ok s =>
    match pyDate (end_date year month) with
    | .error m => (.exn m, [])
    | .ok e =>
      match monthlyBody pid tid s e tier with
      | .ok (some d) => (.val d, [])
      | .ok none => (.pyNone, [])
      | .error msg =>
          (.val (monthlyFallback tid pid), [monthlyDiag pid tid year month msg])

/-- The structured dict returned by `calculate_total_revenue`: its five keys
are the record's fields (`count` is `Nat`, so non-negativity is structural;
`total` is the string the source stores under that key). -/
structure RevenueResult where
  property_id : String
  tenant_id : String
  total : String
  currency : String
  count : Nat
deriving DecidableEq, Repr

/-- WHERE clause of the total query (line 76):
`property_id = :property_id AND tenant_id = :tenant_id`. -/
def totalWhere (pid tid : String) (r : Reservation) : Bool :=
  r.property_id == pid && r.tenant_id == tid

/-- `fetchone()` of the total query (lines 70–84): `GROUP BY property_id`
under a `property_id` equality filter forms at most one group, so the row is
`some (SUM(total_amount), COUNT(*))` when matching reservations exist, and
`none` (zero groups) otherwise. -/
def totalQueryRow (db : List Reservation) (pid tid : String) :
    Option (PyDecimal × Nat) :=
  match db.filter (totalWhere pid tid) with
  | [] => none
  | rows => some (decSum (rows.map Reservation.total_amount), rows.length)

/-- A fallback entry of `mock_data`: a `total` string and a `count`. -/
structure MockEntry where
  total : String
  count : Nat
deriving DecidableEq, Repr

/-- The fallback dict `mock_data` of `calculate_total_revenue`
(lines 114–125), nested by tenant first. -/
def mock_data : List (String × List (String × MockEntry)) :=
  [("tenant-a", [("prop-001", ⟨"2250.000", 4⟩), ("prop-002", ⟨"4975.500", 4⟩),
                 ("prop-003", ⟨"6100.500", 2⟩)]),
   ("tenant-b", [("prop-001", ⟨"0.000", 0⟩), ("prop-004", ⟨"1776.500", 4⟩),
                 ("prop-005", ⟨"3256.000", 3⟩)])]

/-- The diagnostic printed by `calculate_total_revenue`'s handler
(line 108). -/
def totalDiag (pid tid msg : String) : String :=
  "Database error for " ++ pid ++ " (tenant: " ++ tid ++ "): " ++ msg

/-- The fallback `Revenue Result` built from `mock_data` (lines 127–135):
`mock_data.get(tenant_id, {}).get(property_id, default)` with default
`total = '0.000'`, `count = 0`. -/
def totalFallbackResult (pid tid : String) : RevenueResult :=
  let m := dictGet (dictGet mock_data tid []) pid ⟨"0.000", 0⟩
  ⟨pid, tid, m.total, "USD", m.count⟩

/-- The `try` block of `calculate_total_revenue` (lines 57–105).  The
`else: raise Exception("Database pool not available")` of the falsy
`session_factory` branch becomes `.error` with exactly that message, so it is
handled by the same `except` as any live-query exception; a found row yields
the live result (line 86–94), no row yields the literal `"0.00"` / `0` result
(lines 95–103). -/
def totalRevenueBody (pid tid : String) (tier : DbTier) :
    Except String RevenueResult :=
  match tier with
  | .raises msg => .error msg
  | .unavailable => .error "Database pool not available"
  | .live db =>
    match totalQueryRow db pid tid with
    | some (tot, cnt) => .ok ⟨pid, tid, tot.toStr, "USD", cnt⟩
    | none => .ok ⟨pid, tid, "0.00", "USD", 0⟩

/-- `calculate_total_revenue(property_id, tenant_id)` (lines 53–135): the
`try` body's value is returned as-is; any exception it raises is absorbed by
the handler, which prints the diagnostic and returns the `mock_data`
fallback result.  The second component collects the printed diagnostics. -/
def calculate_total_revenue (pid tid : String) (tier : DbTier) :
    RevenueResult × List String :=
  match totalRevenueBody pid tid tier with
  | .ok r => (r, [])
  | .error msg => (totalFallbackResult pid tid, [totalDiag pid tid msg])

/-! ## Helper lemmas (shared; none of these is a claim's theorem) -/

lemma pyDate_mk_ok (y m d : Int) (h1 : 1 ≤ m) (h2 : m ≤ 12) :
    pyDate ⟨y, m, d⟩ = .ok ⟨y, m, d⟩ := by
  simp [pyDate, h1, h2]

lemma pyDate_start_ok (year month : Int) (h1 : 1 ≤ month) (h2 : month ≤ 12) :
    pyDate (start_date year month) = .ok (start_date year month) :=
  pyDate_mk_ok year month 1 h1 h2

lemma pyDate_end_ok (year month : Int) (h1 : 1 ≤ month) (h2 : month ≤ 12) :
    pyDate (end_date year month) = .ok (end_date year month) := by
  by_cases hm : month < 12
  · simp only [end_date, if_pos hm]
    exact pyDate_mk_ok _ _ _ (by omega) (by omega)
  · simp only [end_date, if_neg hm]
    exact pyDate_mk_ok _ _ _ (by omega) (by omega)

lemma dateLeb_refl (a : Date) : dateLeb a a = true := by
  simp [dateLeb]

lemma dateLtb_irrefl (a : Date) : dateLtb a a = false := by
  simp [dateLtb]

lemma dateLtb_start_end (year month : Int) :
    dateLtb (start_date year month) (end_date year month) = true := by
  by_cases hm : month < 12
  · have hlt : month < month + 1 := by omega
    simp [dateLtb, start_date, end_date, hm, hlt]
  · have hlt : year < year + 1 := by omega
    simp [dateLtb, start_date, end_date, hm, hlt]

lemma PyDecimal.add_zero_zero (a : PyDecimal) : a.add ⟨0, 0⟩ = a := by
  cases a
  simp [PyDecimal.add]

/-! ## Claim theorems -/

/-- C1. The claim says both operations always hand the caller a well-formed
value — never an exception, `None`, or a partial result — on every path
including live-tier failure.  The code violates this: when the pool
initializes but `session_factory` is falsy, the `try` block of
`calculate_monthly_revenue` completes without executing a `return`, there is
no code after the `try`/`except`, and the function returns Python `None`
(with no diagnostic).  This theorem evaluates the model at that failing
input. -/
theorem C1_monthly_returns_none_when_factory_missing :
    calculate_monthly_revenue "prop-001" "tenant-a" 6 2024 .unavailable
      = (.pyNone, []) := by
  decide

/-- C2. The claim says every occurrence of collaborator unavailability or
exception is caught, a diagnostic is emitted, and the fallback table supplies
the result.  On the no-exception unavailability path (pool initialized,
`session_factory` falsy) nothing is caught: no diagnostic is emitted and the
result is not the fallback value `Decimal('1243.875')` that `monthly_mock`
holds for this tenant/property — the function returns `None` instead. -/
theorem C2_unavailability_skips_diagnostic_and_fallback :
    (calculate_monthly_revenue "prop-002" "tenant-a" 6 2024 .unavailable).2 = []
      ∧ (calculate_monthly_revenue "prop-002" "tenant-a" 6 2024 .unavailable).1
          ≠ .val (monthlyFallback "tenant-a" "prop-002") := by
  decide

/-- C3. With the live tier unavailable, `calculate_total_revenue` on
`("prop-001", "tenant-a")` returns total `"2250.000"`, count 4, currency
`"USD"`, while the identical call for `"tenant-b"` returns `"0.000"`, count 0
for the same property: the fallback lookup is tenant-keyed before
property-keyed and the two tenants' entries for the shared property id are
distinct. -/
theorem C3_fallback_tenant_isolation :
    (calculate_total_revenue "prop-001" "tenant-a" .unavailable).1
        = ⟨"prop-001", "tenant-a", "2250.000", "USD", 4⟩
      ∧ (calculate_total_revenue "prop-001" "tenant-b" .unavailable).1
        = ⟨"prop-001", "tenant-b", "0.000", "USD", 0⟩
      ∧ (calculate_total_revenue "prop-001" "tenant-a" .unavailable).1.total
        ≠ (calculate_total_revenue "prop-001" "tenant-b" .unavailable).1.total := by
  decide

/-- C4. When the live tier fails (an exception reaches the handler),
`calculate_monthly_revenue("prop-002", "tenant-a", month, year)` returns
`Decimal("1243.875")` for every month in 1–12 and every year: the fallback
value comes from `monthly_mock` with no date filtering, so it is independent
of the requested month and year. -/
theorem C4_monthly_fallback_ignores_dates (msg : String) (month year : Int)
    (h1 : 1 ≤ month) (h2 : month ≤ 12) :
    (calculate_monthly_revenue "prop-002" "tenant-a" month year
        (.raises msg)).1 = .val ⟨1243875, 3⟩ := by
  have hs := pyDate_start_ok year month h1 h2
  have he := pyDate_end_ok year month h1 h2
  unfold calculate_monthly_revenue
  simp only [hs, he, monthlyBody]
  rfl

theorem C4_witness :
    (1 : Int) ≤ 6 ∧ (6 : Int) ≤ 12
      ∧ (calculate_monthly_revenue "prop-002" "tenant-a" 6 2024
          (.raises "boom")).1 = .val ⟨1243875, 3⟩ :=
  ⟨by decide, by decide,
   C4_monthly_fallback_ignores_dates "boom" 6 2024 (by decide) (by decide)⟩

/-- C5. The live monthly query filters check-in dates over the half-open
interval `[start_date, end_date)`: with a single-row table, a reservation
whose check-in equals the first day of the queried month contributes its full
amount to the sum, while one whose check-in equals the first day of the next
month is excluded (the coalesced sum is `Decimal('0')`). -/
theorem C5_half_open_interval (pid tid : String) (month year : Int)
    (amt : PyDecimal) (h1 : 1 ≤ month) (h2 : month ≤ 12) :
    calculate_monthly_revenue pid tid month year
        (.live [⟨pid, tid, amt, start_date year month⟩]) = (.val amt, [])
      ∧ calculate_monthly_revenue pid tid month year
        (.live [⟨pid, tid, amt, end_date year month⟩]) = (.val ⟨0, 0⟩, []) := by
  have hs := pyDate_start_ok year month h1 h2
  have he := pyDate_end_ok year month h1 h2
  constructor
  · unfold calculate_monthly_revenue
    simp only [hs, he, monthlyBody, monthlyQueryTotal, List.filter, monthlyWhere,
      beq_self_eq_true, dateLeb_refl, dateLtb_start_end year month,
      Bool.and_self, Bool.and_true, List.map, decSum, List.foldr,
      PyDecimal.add_zero_zero]
  · unfold calculate_monthly_revenue
    simp only [hs, he, monthlyBody, monthlyQueryTotal, List.filter, monthlyWhere,
      dateLtb_irrefl, Bool.and_false, List.map, decSum, List.foldr]

theorem C5_witness :
    calculate_monthly_revenue "prop-001" "tenant-a" 6 2024
        (.live [⟨"prop-001", "tenant-a", ⟨100, 0⟩, start_date 2024 6⟩])
        = (.val ⟨100, 0⟩, [])
      ∧ calculate_monthly_revenue "prop-001" "tenant-a" 6 2024
        (.live [⟨"prop-001", "tenant-a", ⟨100, 0⟩, end_date 2024 6⟩])
        = (.val ⟨0, 0⟩, []) :=
  C5_half_open_interval "prop-001" "tenant-a" 6 2024 ⟨100, 0⟩
    (by decide) (by decide)

/-- C6. The start/end bounds that `calculate_monthly_revenue` feeds to the
`datetime` constructor: `start_date` is the first day of `(year, month)` for
every year; `end_date` is the first day of `(year, month + 1)` when
`month < 12`, and for `month = 12` it rolls over to `(year + 1, 1, 1)`. -/
theorem C6_month_bounds_rollover (year month : Int) (h : month < 12) :
    start_date year month = ⟨year, month, 1⟩
      ∧ end_date year month = ⟨year, month + 1, 1⟩
      ∧ end_date year 12 = ⟨year + 1, 1, 1⟩ := by
  refine ⟨rfl, ?_, ?_⟩
  · simp [end_date, h]
  · simp [end_date]

theorem C6_witness :
    start_date 2024 5 = ⟨2024, 5, 1⟩
      ∧ end_date 2024 5 = ⟨2024, 6, 1⟩
      ∧ end_date 2024 12 = ⟨2025, 1, 1⟩ :=
  C6_month_bounds_rollover 2024 5 (by decide)

/-- C7. A live total-revenue query that succeeds with no matching rows yields
total `"0.00"`, count 0 (reachable, e.g. on an empty table); the fallback
default used when tenant or property is absent from `mock_data` is
`"0.000"`, count 0; and the two total strings are distinct. -/
theorem C7_live_zero_distinct_from_fallback_zero :
    (calculate_total_revenue "prop-009" "tenant-a" (.live [])).1
        = ⟨"prop-009", "tenant-a", "0.00", "USD", 0⟩
      ∧ (calculate_total_revenue "prop-009" "tenant-a" .unavailable).1
        = ⟨"prop-009", "tenant-a", "0.000", "USD", 0⟩
      ∧ ("0.00" : String) ≠ "0.000" := by
  decide

/-- C8. In `calculate_total_revenue`, a pool with no active session factory
raises the internal failure `"Database pool not available"` inside the `try`
body, and every `.error` outcome of that body — this one and any live-query
exception alike — is absorbed by the same enclosing handler into the
diagnostic-plus-fallback result, never surfacing to the caller. -/
theorem C8_unavailability_unified_with_query_failure (pid tid : String)
    (tier : DbTier) (msg : String)
    (h : totalRevenueBody pid tid tier = .error msg) :
    totalRevenueBody pid tid .unavailable = .error "Database pool not available"
      ∧ calculate_total_revenue pid tid tier
        = (totalFallbackResult pid tid, [totalDiag pid tid msg]) := by
  refine ⟨rfl, ?_⟩
  unfold calculate_total_revenue
  rw [h]

theorem C8_witness :
    totalRevenueBody "prop-004" "tenant-b" .unavailable
        = .error "Database pool not available"
      ∧ calculate_total_revenue "prop-004" "tenant-b" .unavailable
        = (totalFallbackResult "prop-004" "tenant-b",
           [totalDiag "prop-004" "tenant-b" "Database pool not available"]) :=
  C8_unavailability_unified_with_query_failure "prop-004" "tenant-b"
    .unavailable "Database pool not available" rfl

/-- C9. With month outside 1–12 (13 and 0 shown), `calculate_monthly_revenue`
raises `ValueError` from the `datetime` construction to the caller even when
the fallback would have been available: the bounds are computed before the
`try` block begins, so the no-raise guarantee needs the month 1–12
precondition. -/
theorem C9_invalid_month_raises :
    (calculate_monthly_revenue "prop-001" "tenant-a" 13 2024
        (.raises "db down")).1 = .exn "ValueError: month must be in 1..12"
      ∧ (calculate_monthly_revenue "prop-001" "tenant-a" 0 2024
        (.raises "db down")).1 = .exn "ValueError: month must be in 1..12" := by
  decide

/-- C10. On every terminating path of `calculate_total_revenue` (live row
found, live query empty, or fallback), the returned record carries exactly
the five fields of `RevenueResult` — with `property_id` and `tenant_id` equal
to the arguments and `currency` equal to `"USD"`; `total` is a `String` and
`count` a `Nat` (hence non-negative) by the record's type. -/
theorem C10_result_shape (pid tid : String) (tier : DbTier) :
    ((calculate_total_revenue pid tid tier).1).property_id = pid
      ∧ ((calculate_total_revenue pid tid tier).1).tenant_id = tid
      ∧ ((calculate_total_revenue pid tid tier).1).currency = "USD" := by
  cases tier with
  | raises msg => exact ⟨rfl, rfl, rfl⟩
  | unavailable => exact ⟨rfl, rfl, rfl⟩
  | live db =>
    cases h : totalQueryRow db pid tid with
    | none =>
      simp [calculate_total_revenue, totalRevenueBody, h]
    | some rc =>
      obtain ⟨tot, cnt⟩ := rc
      simp [calculate_total_revenue, totalRevenueBody, h]

end Reservations
